import Mathlib

/-!
# Verification of the Peregrine progression-and-rewards engine

Shallow embedding of the gamification subsystem of the Peregrine AI tutor
platform backend, translated from `src/backend/main.py` (classes
`GamificationEngine` and `GamificationStorage`) and
`src/backend/gamification.py` (class `XPCalculator`).

Modelling conventions:
* Python `int` is `Int` (arbitrary precision, may go negative: the code
  performs no sign validation on XP amounts).
* `datetime` values are modelled as hours since an epoch (`Nat`);
  `.date()` is division by 24 and `.hour` is the remainder.
* Python dicts keyed by strings are insertion-ordered association lists.
* The per-learner slices of the module-level storage dicts
  (`student_levels_db`, `student_stats_db`, `student_badges_db`,
  `student_quests_db`, `student_streaks_db`) are collected in `EngineState`.
* Exceptions are modelled by explicit `raised`/`error` flags carrying the
  partially mutated state, because the Python code mutates stored objects
  in place before an exception can escape.
-/

namespace Peregrine

/-- Insertion-ordered association-list lookup (Python `dict.get`). -/
def alistGet {β : Type} : List (String × β) → String → Option β
  | [], _ => none
  | (k', v) :: rest, k => if k' = k then some v else alistGet rest k

/-- Insertion-ordered association-list assignment (Python `dict[k] = v`):
updates in place if the key is present, appends otherwise. -/
def alistSet {β : Type} : List (String × β) → String → β → List (String × β)
  | [], k, v => [(k, v)]
  | (k', v') :: rest, k, v =>
      if k' = k then (k, v) :: rest else (k', v') :: alistSet rest k v

/-! ## Level system (`StudentLevel`, `_initialize_level_system`, `add_xp`) -/

/-- Mirror of the pydantic model `StudentLevel` (main.py). -/
structure StudentLevel where
  student_id : String
  current_level : Nat
  current_xp : Int
  xp_to_next_level : Int
  total_xp_earned : Int
  title : String
deriving Repr, DecidableEq

/-- The 20 level titles of `_initialize_level_system` (main.py), in order. -/
def titles : List String :=
  ["Curious Beginner", "Eager Learner", "Knowledge Seeker", "Smart Student",
   "Bright Mind", "Study Star", "Academic Ace", "Learning Legend",
   "Wisdom Warrior", "Scholar Supreme", "Master Mind", "Genius Explorer",
   "Brilliant Brain", "Learning Lord", "Knowledge King", "Study Sage",
   "Academic Angel", "Wisdom Wizard", "Learning Luminary", "Ultimate Scholar"]

/-- `int(base_xp * multiplier ** (level - 1))` with `base_xp = 100`,
`multiplier = 1.5`.  For `level ≤ 20` the Python float computation is exact
(the product `100 * 3^(level-1) / 2^(level-1)` has at most 37 significant
bits, well within the 53-bit double mantissa), and `int` truncation of a
non-negative value is floor, so the value equals this exact natural-number
formula. -/
def xpRequired (level : Nat) : Int :=
  Int.ofNat (100 * 3 ^ (level - 1) / 2 ^ (level - 1))

/-- `self.level_thresholds`: a dict with keys 1..20 built by
`_initialize_level_system`; looking up any other level raises `KeyError`.
The value is the pair (xp_required, title);
`titles[min(level - 1, len(titles) - 1)]`. -/
def levelThresholds (level : Nat) : Option (Int × String) :=
  if 1 ≤ level ∧ level ≤ 20 then
    some (xpRequired level, titles.getD (min (level - 1) (titles.length - 1)) "")
  else
    none

/-- The record `GamificationStorage.get_student_level` creates for an unknown
learner: level 1, 0 XP, a hardcoded 100-XP first threshold. -/
def defaultLevel (sid : String) : StudentLevel :=
  { student_id := sid, current_level := 1, current_xp := 0,
    xp_to_next_level := 100, total_xp_earned := 0, title := "Curious Beginner" }

/-- The `{level_up, new_level, new_title}` shape the specification says
`addXp` returns (compare `XPGainResponse` in main.py). -/
structure LevelUpInfo where
  level_up : Bool
  new_level : Option Nat := none
  new_title : Option String := none
deriving Repr, DecidableEq

/-- Outcome of a call to `GamificationEngine.add_xp`.
`state` is the stored level record after the call (the code mutates the
stored pydantic object in place, so partial updates survive an exception);
`raised` records whether the call raised (`KeyError` from the
`level_thresholds` lookup); `returned` is the Python return value. -/
structure AddXpOutcome where
  state : StudentLevel
  raised : Bool
  returned : Option LevelUpInfo
deriving Repr, DecidableEq

/-- The `while student_level.current_xp >= student_level.xp_to_next_level`
loop of `add_xp`.  Each iteration subtracts the current threshold,
increments the level and looks the new level up in `level_thresholds`;
a level beyond the table raises `KeyError`, leaving the partially updated
record in place.  The loop is fuelled: 21 units of fuel are always enough
because the table stops at level 20 and the level grows by one per
iteration (`addXpLoop_fuel_irrel`), so the fuel-exhaustion branch is
unreachable from `add_xp`. -/
def addXpLoop : Nat → StudentLevel → AddXpOutcome
  | 0, s => ⟨s, true, none⟩
  | fuel + 1, s =>
    if s.current_xp ≥ s.xp_to_next_level then
      match levelThresholds (s.current_level + 1) with
      | none =>
          -- KeyError: the subtraction and level increment already happened
          ⟨{ s with current_xp := s.current_xp - s.xp_to_next_level,
                    current_level := s.current_level + 1 }, true, none⟩
      | some td =>
          addXpLoop fuel
            { s with current_xp := s.current_xp - s.xp_to_next_level,
                     current_level := s.current_level + 1,
                     title := td.2, xp_to_next_level := td.1 }
    else ⟨s, false, none⟩

/-- `GamificationEngine.add_xp(student_id, xp_amount, reason)` acting on the
stored level record.  Adds the amount to `current_xp` and `total_xp_earned`
(no sign check), then runs the level-up loop.  The Python function has no
`return` statement, so its return value is always `None`
(`returned = none`). -/
def add_xp (s : StudentLevel) (amount : Int) : AddXpOutcome :=
  addXpLoop 21
    { s with current_xp := s.current_xp + amount,
             total_xp_earned := s.total_xp_earned + amount }

/-- The list of outcomes of a sequence of `add_xp` calls, each starting from
the state the previous call left behind. -/
def addXpTrace (s : StudentLevel) : List Int → List AddXpOutcome
  | [] => []
  | a :: as =>
      let o := add_xp s a
      o :: addXpTrace o.state as

/-- The stored level record after a sequence of `add_xp` calls. -/
def runSeq (s : StudentLevel) : List Int → StudentLevel
  | [] => s
  | a :: as => runSeq (add_xp s a).state as

/-! ## Stat counters (`GamificationStorage.get_student_stats` /
`update_student_stats`) -/

/-- A value stored in a learner stats dict: a number (`int`), a string, a
set of strings (`different_tutors_used`), `None`, or a `datetime`
(timestamp fields). -/
inductive StatValue where
  | int (n : Int)
  | str (s : String)
  | strSet (l : List String)
  | noneVal
  | time (t : Nat)
deriving Repr, DecidableEq

/-- A learner stats dict (`student_stats_db[student_id]`). -/
abbrev Stats := List (String × StatValue)

def statGet (s : Stats) (k : String) : Option StatValue := alistGet s k

def statSet (s : Stats) (k : String) (v : StatValue) : Stats := alistSet s k v

/-- The default stats record `get_student_stats` creates for an unknown
learner, keys in source order. -/
def defaultStats : Stats :=
  [("messages_sent", .int 0), ("math_interactions", .int 0),
   ("science_interactions", .int 0), ("reading_interactions", .int 0),
   ("general_interactions", .int 0), ("books_read", .int 0),
   ("voice_interactions", .int 0), ("stories_generated", .int 0),
   ("unique_questions", .int 0), ("different_tutors_used", .strSet []),
   ("late_night_study", .int 0), ("early_morning_study", .int 0),
   ("total_study_time_minutes", .int 0), ("consecutive_days", .int 0),
   ("first_chat_date", .noneVal), ("last_activity_date", .noneVal)]

/-- `GamificationStorage.get_student_stats`: get-or-create the default
record, return a copy in which a `different_tutors_used` set is replaced
by its size. -/
def get_student_stats (db : Option Stats) : Stats :=
  let stats := db.getD defaultStats
  match statGet stats "different_tutors_used" with
  | some (.strSet l) =>
      statSet stats "different_tutors_used" (.int (Int.ofNat l.length))
  | _ => stats

/-- Is this value a Python number (`isinstance(value, (int, float))`)? -/
def StatValue.isNum : StatValue → Bool
  | .int _ => true
  | _ => false

/-- Is this stored value a Python set (`isinstance(stats[key], set)`)? -/
def isSetVal : Option StatValue → Bool
  | some (.strSet _) => true
  | _ => false

/-- One iteration of the `for key, value in activity_data.items()` loop of
`update_student_stats`:
* `key == "different_tutors_used" and isinstance(stats[key], set)` →
  `stats[key].add(value)` (only string values occur on this path);
* otherwise `key in stats` → `stats[key] += value` for a numeric value,
  `stats[key] = value` for anything else (`stats[key] += value` on a
  non-numeric stored value would raise `TypeError`; no caller produces
  that combination, and it is modelled as a no-op);
* otherwise the key is silently discarded. -/
def applyStatUpdate (stats : Stats) (k : String) (v : StatValue) : Stats :=
  if k = "different_tutors_used" ∧ isSetVal (statGet stats k) then
    match statGet stats k, v with
    | some (.strSet l), .str s =>
        statSet stats k (.strSet (if s ∈ l then l else l ++ [s]))
    | _, _ => stats
  else if (statGet stats k).isSome then
    if v.isNum then
      match statGet stats k, v with
      | some (.int a), .int b => statSet stats k (.int (a + b))
      | _, _ => stats
    else statSet stats k v
  else stats

/-- `GamificationStorage.update_student_stats`: reads the (converted) stats
via `get_student_stats`, folds the activity dict over `applyStatUpdate`,
stamps `last_activity_date` and, if unset, `first_chat_date`, and stores
the result back. -/
def update_student_stats (db : Option Stats) (upd : List (String × StatValue))
    (now : Nat) : Stats :=
  let stats := get_student_stats db
  let stats := upd.foldl (fun acc kv => applyStatUpdate acc kv.1 kv.2) stats
  let stats := statSet stats "last_activity_date" (.time now)
  if statGet stats "first_chat_date" = some .noneVal then
    statSet stats "first_chat_date" (.time now)
  else stats

/-- `dict.get(key, 0)` specialised to the numeric counters the badge and
quest requirement checks read (every requirement key is either absent or
holds an `int`). -/
def statNum (s : Stats) (k : String) : Int :=
  match statGet s k with
  | some (.int n) => n
  | _ => 0

/-! ## XP calculator (`XPCalculator.calculate_activity_xp`,
src/backend/gamification.py) -/

/-- The optional quality signals and tags of an `activity_data` dict.
The three scores are modelled as naturals: for a non-negative score `n`,
Python `int(n * 0.5)` is exactly `n / 2` (halving is exact in binary
floating point and `int` truncation of a non-negative value is floor),
and `int(min(n / 2, 50))` is exactly `min (n / 2) 50`. -/
structure ActivityData where
  accuracy_score : Nat := 0
  words_per_minute : Nat := 0
  comprehension_score : Nat := 0
  subject : Option String := none
  tutor_type : Option String := none
deriving Repr, DecidableEq

/-- The dict `XPCalculator.calculate_activity_xp` returns (the `bonuses`
echo of the raw activity data is dropped). -/
structure XPResult where
  xp_earned : Nat
  total_xp : Nat
  activity_type : String
deriving Repr, DecidableEq

/-- The fixed `base_xp` table, with default 5 for unknown activity types. -/
def base_xp (activity_type : String) : Nat :=
  if activity_type = "message_sent" then 5
  else if activity_type = "voice_used" then 10
  else if activity_type = "book_generated" then 20
  else if activity_type = "chapter_completed" then 30
  else if activity_type = "reading_session" then 40
  else 5

/-- `XPCalculator.calculate_activity_xp`: base XP plus, for a
`reading_session`, `int(accuracy * 0.5) + int(min(wpm / 2, 50)) +
int(comprehension * 0.5)`.  Only the reading-speed term is capped. -/
def calculate_activity_xp (activity_type : String) (d : ActivityData) :
    XPResult :=
  let xp := base_xp activity_type
  let xp :=
    if activity_type = "reading_session" then
      xp + d.accuracy_score / 2 + min (d.words_per_minute / 2) 50
         + d.comprehension_score / 2
    else xp
  { xp_earned := xp, total_xp := xp, activity_type := activity_type }

/-! ## Streak tracker (`GamificationEngine.update_streaks`,
`check_streak_badges`) -/

/-- Mirror of the pydantic model `Streak` (main.py). -/
structure Streak where
  student_id : String
  streak_type : String
  current_count : Int
  max_count : Int
  last_activity_date : Nat
  is_active : Bool
deriving Repr, DecidableEq

/-- `datetime.date()` of a timestamp measured in hours since the epoch. -/
def dateOf (t : Nat) : Nat := t / 24

/-- `datetime.hour` of a timestamp measured in hours since the epoch. -/
def hourOf (t : Nat) : Nat := t % 24

/-- The daily-study transition at the heart of
`GamificationEngine.update_streaks` (main.py lines 624-648): get-or-create
the record, then branch on the calendar date of the last activity versus
today.  The surrounding storage read/write and the streak-badge hook are
modelled separately (`check_streak_badges`, `process_student_activity`). -/
def update_streaks (rec : Option Streak) (sid : String) (now : Nat) :
    Streak :=
  match rec with
  | none =>
      { student_id := sid, streak_type := "daily_study", current_count := 1,
        max_count := 1, last_activity_date := now, is_active := true }
  | some r =>
      if dateOf r.last_activity_date = dateOf now then
        r
      else if (dateOf r.last_activity_date : Int) = (dateOf now : Int) - 1 then
        { r with current_count := r.current_count + 1,
                 max_count := max r.max_count (r.current_count + 1),
                 last_activity_date := now }
      else
        { r with current_count := 1, last_activity_date := now,
                 is_active := true }

/-- Modelled from the spec (section 4.4 / claim C4): the claimed `touch`
transition, written out field by field.  No existing record creates
`currentCount=1, maxCount=1, isActive=true`; the same calendar date leaves
the record unchanged; yesterday increments `currentCount`, raises
`maxCount` to at least the new count, and restamps the date; any larger
gap resets `currentCount` to 1 and restamps, preserving `maxCount`. -/
def touchSpec (rec : Option Streak) (sid : String) (now : Nat) : Streak :=
  match rec with
  | none =>
      { student_id := sid, streak_type := "daily_study", current_count := 1,
        max_count := 1, last_activity_date := now, is_active := true }
  | some r =>
      if dateOf r.last_activity_date = dateOf now then
        { student_id := r.student_id, streak_type := r.streak_type,
          current_count := r.current_count, max_count := r.max_count,
          last_activity_date := r.last_activity_date,
          is_active := r.is_active }
      else if (dateOf r.last_activity_date : Int) = (dateOf now : Int) - 1 then
        { student_id := r.student_id, streak_type := r.streak_type,
          current_count := r.current_count + 1,
          max_count := max r.max_count (r.current_count + 1),
          last_activity_date := now, is_active := r.is_active }
      else
        { student_id := r.student_id, streak_type := r.streak_type,
          current_count := 1, max_count := r.max_count,
          last_activity_date := now, is_active := true }

/-! ## Badge engine (`check_and_award_badges`, `award_badge`) -/

/-- `GamificationStorage.award_badge`: appends one Achievement record
unless the learner already holds the badge (`student_has_badge`).
Achievements for one learner are modelled by their badge ids in earned
order. -/
def award_badge (held : List String) (badge_id : String) : List String :=
  if badge_id ∈ held then held else held ++ [badge_id]

/-- `GamificationEngine.check_streak_badges`: on the daily-study streak,
award `daily_learner` at 7 days, else `study_warrior` at 30 days (no XP is
granted on this path). -/
def check_streak_badges (streak : Streak) (held : List String) :
    List String :=
  if streak.streak_type = "daily_study" then
    if streak.current_count ≥ 7 ∧ "daily_learner" ∉ held then
      award_badge held "daily_learner"
    else if streak.current_count ≥ 30 ∧ "study_warrior" ∉ held then
      award_badge held "study_warrior"
    else held
  else held

/-- The slice of a catalog `Badge` the engine logic reads: id, counter
requirements and XP reward. -/
structure BadgeDef where
  id : String
  requirements : List (String × Int)
  xp_reward : Int
deriving Repr, DecidableEq

/-- The badge catalog of `_initialize_badges`, in dict insertion order. -/
def badgeCatalog : List BadgeDef :=
  [⟨"first_chat", [("messages_sent", 1)], 50⟩,
   ⟨"curious_mind", [("unique_questions", 10)], 100⟩,
   ⟨"math_rookie", [("math_interactions", 20)], 150⟩,
   ⟨"math_explorer", [("math_interactions", 100)], 300⟩,
   ⟨"math_master", [("math_interactions", 500)], 750⟩,
   ⟨"science_enthusiast", [("science_interactions", 50)], 200⟩,
   ⟨"reading_champion", [("books_read", 25)], 250⟩,
   ⟨"daily_learner", [("daily_streak", 7)], 200⟩,
   ⟨"study_warrior", [("daily_streak", 30)], 1000⟩,
   ⟨"night_owl", [("late_night_study", 1)], 75⟩,
   ⟨"early_bird", [("early_morning_study", 1)], 75⟩,
   ⟨"voice_explorer", [("voice_interactions", 10)], 125⟩,
   ⟨"story_creator", [("stories_generated", 5)], 200⟩,
   ⟨"tutor_whisperer", [("all_tutors_one_day", 1)], 500⟩,
   ⟨"knowledge_seeker", [("diverse_topics_week", 20)], 750⟩]

/-- `GamificationEngine._check_badge_requirements`: every requirement key
must satisfy `student_stats.get(key, 0) + activity_data.get(key, 0) >=
threshold`. -/
def check_badge_requirements (b : BadgeDef) (stats delta : Stats) : Bool :=
  b.requirements.all fun kr => statNum stats kr.1 + statNum delta kr.1 ≥ kr.2

/-- Result of `check_and_award_badges`: the achievement list and level
record after the call, the newly awarded badge ids, and whether an
exception escaped (a `KeyError` raised inside `add_xp` propagates, losing
the return value but keeping the state mutations). -/
structure CheckAwardResult where
  badges : List String
  level : StudentLevel
  awarded : List String
  raised : Bool
deriving Repr, DecidableEq

/-- The `for badge_id, badge in self.badges.items()` loop of
`check_and_award_badges`: skip held badges; otherwise, if the requirements
pass, award the badge and grant its XP reward through `add_xp`. -/
def checkAwardGo (stats delta : Stats) :
    List BadgeDef → List String → StudentLevel → CheckAwardResult
  | [], held, lvl => ⟨held, lvl, [], false⟩
  | b :: rest, held, lvl =>
    if b.id ∈ held then checkAwardGo stats delta rest held lvl
    else if check_badge_requirements b stats delta then
      let held' := award_badge held b.id
      let o := add_xp lvl b.xp_reward
      if o.raised then ⟨held', o.state, [], true⟩
      else
        let r := checkAwardGo stats delta rest held' o.state
        ⟨r.badges, r.level, b.id :: r.awarded, r.raised⟩
    else checkAwardGo stats delta rest held lvl

/-- `GamificationEngine.check_and_award_badges(student_id, activity_data)`
against the stored stats, achievements and level record. -/
def check_and_award_badges (stats delta : Stats) (held : List String)
    (lvl : StudentLevel) : CheckAwardResult :=
  checkAwardGo stats delta badgeCatalog held lvl

/-! ## Quest engine (`update_quest_progress`, `get_active_quests`) -/

/-- The slice of a catalog `Quest` the engine logic reads. -/
structure QuestDef where
  id : String
  requirements : List (String × Int)
  xp_reward : Int
  badge_reward : Option String := none
  time_limit_hours : Option Nat := none
deriving Repr, DecidableEq

/-- The quest catalog of `_initialize_quests`, in dict insertion order. -/
def questCatalog : List QuestDef :=
  [⟨"daily_explorer", [("messages_today", 5)], 100, none, some 24⟩,
   ⟨"subject_hopper", [("different_tutors_today", 3)], 150,
      some "tutor_whisperer", some 24⟩,
   ⟨"story_time", [("story_generated_and_read_today", 1)], 125, none,
      some 24⟩,
   ⟨"math_marathon", [("math_problems_week", 10)], 300, some "math_rookie",
      some 168⟩,
   ⟨"voice_challenger", [("voice_interactions_today", 3)], 175, none,
      some 24⟩]

/-- `self.quests[quest_id]` (raises `KeyError` for an unknown id). -/
def questLookup (quest_id : String) : Option QuestDef :=
  questCatalog.find? fun q => q.id == quest_id

/-- Mirror of the pydantic model `StudentQuest` (main.py).  Note it has no
`time_limit_hours` field: the time limit lives on the catalog `Quest`. -/
structure StudentQuest where
  quest_id : String
  student_id : String
  start_date : Nat
  progress : List (String × Int)
  completed : Bool := false
  completion_date : Option Nat := none
deriving Repr, DecidableEq

/-- Python `hasattr(quest, "time_limit_hours")` evaluated on a
`StudentQuest` instance, as written in `get_active_quests` (main.py line
1260).  `StudentQuest` declares no `time_limit_hours` field, so this is
false for every instance; the expiry check it guards is dead code. -/
def studentQuestHasTimeLimitAttr (_ : StudentQuest) : Bool := false

/-- `GamificationStorage.get_active_quests`: keep the instances that are
not completed and not expired — but the expiry check is guarded by
`hasattr(quest, "time_limit_hours")` on the instance, which is always
false, so only the completion filter has any effect. -/
def get_active_quests (db : List StudentQuest) (now : Nat) :
    List StudentQuest :=
  db.filter fun q =>
    if q.completed then false
    else if studentQuestHasTimeLimitAttr q then
      match questLookup q.quest_id with
      | some qd =>
          match qd.time_limit_hours with
          | some h => decide (now ≤ q.start_date + h)
          | none => true
      | none => true
    else true

/-- `GamificationEngine._is_quest_completed`: every requirement key must
have accumulated progress at or above its threshold. -/
def is_quest_completed (qd : QuestDef) (progress : List (String × Int)) :
    Bool :=
  qd.requirements.all fun kr => (alistGet progress kr.1).getD 0 ≥ kr.2

/-- Result of `update_quest_progress`: the stored quest instances, level
record and achievements after the call, the completions reported
(quest id, XP), and whether an exception escaped. -/
structure QuestUpdateResult where
  quests : List StudentQuest
  level : StudentLevel
  badges : List String
  completed : List (String × Int)
  raised : Bool
deriving Repr, DecidableEq

/-- The `for quest_progress in active_quests` loop of
`update_quest_progress`.  Completed instances are not in the active list
and are left untouched (the dead expiry check cannot exclude anything, see
`get_active_quests`).  For an active instance: add every requirement key
present in the activity dict to its progress, and on completion stamp the
instance, grant the quest XP via `add_xp` and any badge reward via
`award_badge`.  The Python loop mutates the stored instances in place, so
updates are written back positionally here; an exception from `add_xp` or
from an unknown quest id (`KeyError`) aborts the loop, keeping the
mutations made so far. -/
def updateQuestGo (delta : Stats) (now : Nat) :
    List StudentQuest → StudentLevel → List String → QuestUpdateResult
  | [], lvl, held => ⟨[], lvl, held, [], false⟩
  | q :: rest, lvl, held =>
    if q.completed then
      let r := updateQuestGo delta now rest lvl held
      ⟨q :: r.quests, r.level, r.badges, r.completed, r.raised⟩
    else
      match questLookup q.quest_id with
      | none => ⟨q :: rest, lvl, held, [], true⟩
      | some qd =>
        let prog := qd.requirements.foldl
          (fun p kr =>
            if (statGet delta kr.1).isSome then
              alistSet p kr.1 ((alistGet p kr.1).getD 0 + statNum delta kr.1)
            else p)
          q.progress
        if is_quest_completed qd prog then
          let q' := { q with progress := prog, completed := true,
                             completion_date := some now }
          let o := add_xp lvl qd.xp_reward
          if o.raised then ⟨q' :: rest, o.state, held, [], true⟩
          else
            let held' := match qd.badge_reward with
              | some b => award_badge held b
              | none => held
            let r := updateQuestGo delta now rest o.state held'
            ⟨q' :: r.quests, r.level, r.badges,
             (qd.id, qd.xp_reward) :: r.completed, r.raised⟩
        else
          let q' := { q with progress := prog }
          let r := updateQuestGo delta now rest lvl held
          ⟨q' :: r.quests, r.level, r.badges, r.completed, r.raised⟩

/-- `GamificationEngine.update_quest_progress(student_id, activity_data)`
against the stored quest instances, level record and achievements. -/
def update_quest_progress (db : List StudentQuest) (delta : Stats)
    (lvl : StudentLevel) (held : List String) (now : Nat) :
    QuestUpdateResult :=
  updateQuestGo delta now db lvl held

/-! ## Activity processor (`process_student_activity`) -/

/-- `GamificationEngine.check_special_achievements`: time-of-day badges,
plus `voice_explorer` / `story_creator` / `tutor_whisperer` checks.  The
`tutor_whisperer` branch tests `isinstance(tutors_used, set)` on the value
returned by `get_student_stats`, which has already converted the set to an
int, so it never awards. -/
def check_special_achievements (activity_type : String) (d : ActivityData)
    (stats : Stats) (held : List String) (now : Nat) : List String :=
  let h := hourOf now
  let held :=
    if (21 ≤ h ∨ h ≤ 5) ∧ "night_owl" ∉ held then
      award_badge held "night_owl"
    else held
  let held :=
    if h ≤ 7 ∧ "early_bird" ∉ held then award_badge held "early_bird"
    else held
  let held :=
    if activity_type = "voice_used" ∧ statNum stats "voice_interactions" ≥ 10
        ∧ "voice_explorer" ∉ held then
      award_badge held "voice_explorer"
    else held
  let held :=
    if activity_type = "book_generated"
        ∧ statNum stats "stories_generated" ≥ 5
        ∧ "story_creator" ∉ held then
      award_badge held "story_creator"
    else held
  let held :=
    if d.tutor_type.isSome then
      match statGet stats "different_tutors_used" with
      | some (.strSet l) =>
          if l.length ≥ 4 ∧ "tutor_whisperer" ∉ held then
            award_badge held "tutor_whisperer"
          else held
      | _ => held
    else held
  held

/-- The `stats_update` dict assembled in step 2 of
`process_student_activity`: the activity type itself, `total_activities`,
an optional subject counter, an optional tutor tag, and a time-of-day
counter (late night taking precedence over early morning). -/
def stats_update_of (activity_type : String) (d : ActivityData) (now : Nat) :
    List (String × StatValue) :=
  [(activity_type, .int 1), ("total_activities", .int 1)]
  ++ (match d.subject with
      | some subj => [(subj ++ "_interactions", .int 1)]
      | none => [])
  ++ (match d.tutor_type with
      | some t => [("different_tutors_used", .str t)]
      | none => [])
  ++ (let h := hourOf now
      if 21 ≤ h ∨ h ≤ 5 then [("late_night_study", .int 1)]
      else if h ≤ 7 then [("early_morning_study", .int 1)]
      else [])

/-- The per-learner slice of the module-level storage dicts. -/
structure EngineState where
  level : Option StudentLevel := none
  stats : Option Stats := none
  badges : List String := []
  quests : List StudentQuest := []
  streak : Option Streak := none
deriving Repr, DecidableEq

/-- The `results` dict `process_student_activity` returns. -/
structure ActivityResult where
  xp_gained : Nat := 0
  new_badges : List String := []
  completed_quests : List (String × Int) := []
  streak_updates : List (String × Int × Bool × Bool) := []
  level_up : Bool := false
  level_info : Option LevelUpInfo := none
  xp_details : Option XPResult := none
  error : Option String := none
deriving Repr, DecidableEq

/-- `GamificationEngine.process_student_activity`.  Step 1 computes the XP
and calls `add_xp`; because `add_xp` has no `return` statement,
`xp_info["level_up"]` then raises `TypeError`, the blanket `except` fills
`results["error"]`, and steps 2-6 never run.  The remaining steps are
embedded for completeness in the (unreachable) branch in which `add_xp`
returned a level-up dict; any exception inside them likewise aborts the
rest of the pipeline while keeping the mutations already made. -/
def process_student_activity (sid : String) (st : EngineState)
    (activity_type : String) (d : ActivityData) (now : Nat) :
    EngineState × ActivityResult :=
  -- step 1: XP
  let xp_result := calculate_activity_xp activity_type d
  let o := add_xp (st.level.getD (defaultLevel sid)) (xp_result.total_xp : Int)
  let st := { st with level := some o.state }
  if o.raised then
    (st, { error := some "KeyError (level beyond level_thresholds)" })
  else
    match o.returned with
    | none =>
        (st, { xp_gained := xp_result.total_xp, xp_details := some xp_result,
               error := some "TypeError (NoneType is not subscriptable)" })
    | some info =>
        -- unreachable: add_xp always returns None (theorem addXp_returned_none)
        let res : ActivityResult :=
          { xp_gained := xp_result.total_xp, xp_details := some xp_result,
            level_up := info.level_up, level_info := some info }
        -- step 2: stats
        let st := { st with
          stats := some (update_student_stats st.stats
            (stats_update_of activity_type d now) now) }
        -- step 3: streaks
        let streak := update_streaks st.streak sid now
        let st := { st with streak := some streak,
                            badges := check_streak_badges streak st.badges }
        let res := { res with streak_updates :=
          [("daily_study", streak.current_count,
            streak.current_count ≥ streak.max_count, streak.is_active)] }
        -- step 4: badges, against the freshly re-read stats
        let current := get_student_stats st.stats
        let ca := check_and_award_badges current current st.badges
          (st.level.getD (defaultLevel sid))
        let st := { st with badges := ca.badges, level := some ca.level }
        if ca.raised then (st, { res with error := some "error in step 4" })
        else
          let res := { res with new_badges := ca.awarded }
          -- step 5: quest progress, with the full current stats as delta
          let qu := update_quest_progress st.quests current
            (st.level.getD (defaultLevel sid)) st.badges now
          let st := { st with quests := qu.quests, level := some qu.level,
                              badges := qu.badges }
          if qu.raised then (st, { res with error := some "error in step 5" })
          else
            let res := { res with completed_quests := qu.completed }
            -- step 6: special achievements
            let st := { st with badges := (check_special_achievements
              activity_type d (get_student_stats st.stats) st.badges now) }
            (st, res)

/-- Fold a list of (activity type, timestamp) reports through the
processor, collecting the per-report results. -/
def runActivities (sid : String) :
    EngineState → List (String × Nat) → EngineState × List ActivityResult
  | st, [] => (st, [])
  | st, (ty, t) :: rest =>
      let (st', res) := process_student_activity sid st ty {} t
      let (stF, acc) := runActivities sid st' rest
      (stF, res :: acc)

/-! ## Leaderboard (`GamificationStorage.get_leaderboard_data`) -/

/-- One entry of the leaderboard list. -/
structure LeaderboardEntry where
  student_id : String
  student_name : String
  level : Nat
  total_xp : Int
  title : String
  badges_earned : Nat
  rank : Option Nat := none
deriving Repr, DecidableEq

/-- Stable insertion into a list sorted by `total_xp` descending: the new
element goes after every strictly greater entry and before equal ones,
exactly the placement Python `list.sort(key=..., reverse=True)` (a stable
sort) gives an element relative to earlier-listed ties. -/
def insertDesc (e : LeaderboardEntry) : List LeaderboardEntry →
    List LeaderboardEntry
  | [] => [e]
  | x :: xs =>
      if x.total_xp > e.total_xp then x :: insertDesc e xs else e :: x :: xs

/-- Stable sort by `total_xp` descending
(`leaderboard.sort(key=lambda x: x["total_xp"], reverse=True)`). -/
def sortByXpDesc : List LeaderboardEntry → List LeaderboardEntry
  | [] => []
  | x :: xs => insertDesc x (sortByXpDesc xs)

/-- `entry["rank"] = i + 1` over the first `limit` entries. -/
def assignRanks : Nat → List LeaderboardEntry → List LeaderboardEntry
  | _, [] => []
  | i, e :: rest => { e with rank := some i } :: assignRanks (i + 1) rest

/-- `GamificationStorage.get_leaderboard_data`: build one entry per learner
in `student_levels_db` iteration (= insertion) order, stable-sort by
`total_xp` descending, truncate to `limit` and assign ranks.  The
`timeframe` argument is accepted and ignored, as in the source. -/
def get_leaderboard_data (levelsDb : List (String × StudentLevel))
    (badgesDb : List (String × List String)) (timeframe : String)
    (limit : Nat) : List LeaderboardEntry :=
  let _ := timeframe
  let leaderboard := levelsDb.map fun p =>
    { student_id := p.1, student_name := "Student " ++ p.1.takeRight 4,
      level := p.2.current_level, total_xp := p.2.total_xp_earned,
      title := p.2.title,
      badges_earned := ((alistGet badgesDb p.1).getD []).length
      : LeaderboardEntry }
  assignRanks 1 ((sortByXpDesc leaderboard).take limit)

/-! ## Supporting lemmas: the XP loop -/

/-- The fuel given to `addXpLoop` is irrelevant as long as it exceeds the
20 levels of the table: the level grows by one per iteration and the
threshold lookup fails beyond level 20, so the loop always stops within
the fuel bound.  This justifies the fixed fuel of 21 in `add_xp`. -/
theorem addXpLoop_fuel_irrel (f1 : Nat) : ∀ (f2 : Nat) (s : StudentLevel),
    1 ≤ f1 → 1 ≤ f2 → 21 ≤ f1 + s.current_level → 21 ≤ f2 + s.current_level →
    addXpLoop f1 s = addXpLoop f2 s := by
  induction f1 with
  | zero => intro f2 s h1 _ _ _; omega
  | succ n ih =>
      intro f2 s _ h2 hb1 hb2
      cases f2 with
      | zero => omega
      | succ m =>
          rw [addXpLoop, addXpLoop]
          split
          · rename_i hge
            rcases hm : levelThresholds (s.current_level + 1) with _ | td
            · rfl
            · have hle : s.current_level + 1 ≤ 20 := by
                by_contra hgt
                rw [levelThresholds, if_neg (by omega)] at hm
                exact Option.noConfusion hm
              exact ih m _ (by omega) (by omega) (by simpa using by omega)
                (by simpa using by omega)
          · rfl

/-- `add_xp` never returns a value: the Python function body has no
`return` statement. -/
theorem addXpLoop_returned_none (fuel : Nat) : ∀ s : StudentLevel,
    (addXpLoop fuel s).returned = none := by
  induction fuel with
  | zero => intro s; rfl
  | succ n ih =>
      intro s
      rw [addXpLoop]
      split
      · rcases levelThresholds (s.current_level + 1) with _ | td
        · rfl
        · exact ih _
      · rfl

/-- The level-up loop never touches `total_xp_earned`. -/
theorem addXpLoop_total (fuel : Nat) : ∀ s : StudentLevel,
    (addXpLoop fuel s).state.total_xp_earned = s.total_xp_earned := by
  induction fuel with
  | zero => intro s; rfl
  | succ n ih =>
      intro s
      rw [addXpLoop]
      split
      · rcases levelThresholds (s.current_level + 1) with _ | td
        · rfl
        · exact ih _
      · rfl

/-- If the loop exits without raising, the stored record satisfies
`current_xp < xp_to_next_level`. -/
theorem addXpLoop_inv (fuel : Nat) : ∀ s : StudentLevel,
    (addXpLoop fuel s).raised = false →
    (addXpLoop fuel s).state.current_xp
      < (addXpLoop fuel s).state.xp_to_next_level := by
  induction fuel with
  | zero => intro s h; exact absurd h (by simp [addXpLoop])
  | succ n ih =>
      intro s
      rw [addXpLoop]
      split
      · rcases levelThresholds (s.current_level + 1) with _ | td
        · intro h; exact absurd h (by simp)
        · exact ih _
      · intro _
        rename_i hlt
        simpa using by omega

theorem add_xp_returned_none (s : StudentLevel) (a : Int) :
    (add_xp s a).returned = none :=
  addXpLoop_returned_none 21 _

theorem add_xp_total (s : StudentLevel) (a : Int) :
    (add_xp s a).state.total_xp_earned = s.total_xp_earned + a := by
  unfold add_xp
  rw [addXpLoop_total]

theorem add_xp_inv (s : StudentLevel) (a : Int)
    (h : (add_xp s a).raised = false) :
    (add_xp s a).state.current_xp < (add_xp s a).state.xp_to_next_level :=
  addXpLoop_inv 21 _ h

/-- If no level-up is pending, the loop exits immediately. -/
theorem addXpLoop_no_levelup (fuel : Nat) (s : StudentLevel)
    (h : s.current_xp < s.xp_to_next_level) :
    addXpLoop (fuel + 1) s = ⟨s, false, none⟩ := by
  rw [addXpLoop, if_neg (by omega)]

/-- `runSeq` accumulates exactly the sum of the amounts in
`total_xp_earned`, whether or not any call raised and whatever the signs
of the amounts: every call adds its amount to the total before the loop,
and the loop never touches the total. -/
theorem runSeq_total (amts : List Int) : ∀ s : StudentLevel,
    (runSeq s amts).total_xp_earned = s.total_xp_earned + amts.sum := by
  induction amts with
  | nil => intro s; simp [runSeq]
  | cons a as ih =>
      intro s
      rw [runSeq, ih, add_xp_total, List.sum_cons]
      ring

/-- Every non-raising call in a trace leaves `current_xp` below the
threshold. -/
theorem addXpTrace_inv (amts : List Int) : ∀ (s : StudentLevel)
    (o : AddXpOutcome), o ∈ addXpTrace s amts → o.raised = false →
    o.state.current_xp < o.state.xp_to_next_level := by
  induction amts with
  | nil => intro s o ho; exact absurd ho (by simp [addXpTrace])
  | cons a as ih =>
      intro s o ho hr
      rw [addXpTrace] at ho
      rcases List.mem_cons.mp ho with h | h
      · subst h; exact add_xp_inv _ _ hr
      · exact ih _ o h hr

/-- With non-negative amounts, `total_xp_earned` is non-decreasing from
call to call along a trace. -/
theorem addXpTrace_chain (amts : List Int)
    (hpos : ∀ a ∈ amts, 0 ≤ a) : ∀ s : StudentLevel,
    List.Chain' (fun x y =>
      x.state.total_xp_earned ≤ y.state.total_xp_earned)
      (addXpTrace s amts) := by
  induction amts with
  | nil => intro s; simp [addXpTrace]
  | cons a as ih =>
      intro s
      rw [addXpTrace]
      apply List.chain'_cons'.mpr
      refine ⟨?_, ih (fun x hx => hpos x (List.mem_cons_of_mem _ hx)) _⟩
      intro y hy
      cases as with
      | nil => simp [addXpTrace] at hy
      | cons b bs =>
          rw [addXpTrace] at hy
          simp only [List.head?_cons, Option.mem_def, Option.some.injEq] at hy
          subst hy
          simp only [add_xp_total]
          have hb : 0 ≤ b := hpos b (by simp)
          omega

/-! ## Claim theorems -/

/-- C1: `add_xp` does not return a `{levelUp, newLevel, newTitle}` record —
it returns `None` for every learner state and every amount — and the
orchestrator does not take `level_up`/`level_info` from it: subscripting
the `None` raises, so even an activity that does level the learner up
(here 95/100 + 5 XP reaches level 2) yields an `ActivityResult` with
`level_up = false`, no `level_info`, and an error. -/
theorem C1_add_xp_returns_none :
    (∀ (s : StudentLevel) (amount : Int), (add_xp s amount).returned = none)
    ∧ ((process_student_activity "s"
          { level := some ⟨"s", 1, 95, 100, 0, "Curious Beginner"⟩ }
          "message_sent" {} 2409).1.level
        = some ⟨"s", 2, 0, 150, 5, "Eager Learner"⟩)
    ∧ ((process_student_activity "s"
          { level := some ⟨"s", 1, 95, 100, 0, "Curious Beginner"⟩ }
          "message_sent" {} 2409).2.level_up = false)
    ∧ ((process_student_activity "s"
          { level := some ⟨"s", 1, 95, 100, 0, "Curious Beginner"⟩ }
          "message_sent" {} 2409).2.level_info = none)
    ∧ ((process_student_activity "s"
          { level := some ⟨"s", 1, 95, 100, 0, "Curious Beginner"⟩ }
          "message_sent" {} 2409).2.error.isSome = true) := by
  refine ⟨fun s a => add_xp_returned_none s a, ?_, ?_, ?_, ?_⟩ <;> decide

/-- C3 counterexample: with the non-negative amount 1000000 applied to the
default level-1 record, the call drives the level past the 20-entry table,
raises `KeyError`, and leaves the stored record (mutated in place) with
`current_xp = 335157 ≥ 221683 = xp_to_next_level`: the invariant
`currentXp < xpToNextLevel` does not hold after every call with a
non-negative amount. -/
theorem C3_counterexample :
    (0 : Int) ≤ 1000000
    ∧ (add_xp (defaultLevel "s") 1000000).raised = true
    ∧ ¬ ((add_xp (defaultLevel "s") 1000000).state.current_xp
          < (add_xp (defaultLevel "s") 1000000).state.xp_to_next_level) := by
  decide

/-- C3 (amended): starting from the default level-1 record, for every
sequence of `add_xp` calls with non-negative amounts *in which no call
overflows the 20-level table* (no call raises), `total_xp_earned` after
the whole sequence equals the sum of the amounts, `current_xp <
xp_to_next_level` holds after every individual call, and
`total_xp_earned` is non-decreasing from call to call. -/
theorem C3_xp_accounting (sid : String) (amts : List Int)
    (hpos : ∀ a ∈ amts, 0 ≤ a)
    (hok : ∀ o ∈ addXpTrace (defaultLevel sid) amts, o.raised = false) :
    (runSeq (defaultLevel sid) amts).total_xp_earned = amts.sum
    ∧ (∀ o ∈ addXpTrace (defaultLevel sid) amts,
        o.state.current_xp < o.state.xp_to_next_level)
    ∧ List.Chain' (fun x y =>
        x.state.total_xp_earned ≤ y.state.total_xp_earned)
        (addXpTrace (defaultLevel sid) amts) := by
  refine ⟨?_, ?_, addXpTrace_chain _ hpos _⟩
  · rw [runSeq_total]; simp [defaultLevel]
  · intro o ho
    exact addXpTrace_inv _ _ o ho (hok o ho)

/-- C3 witness: the amended theorem applied to the concrete sequence
[250, 30] for learner "s". -/
theorem C3_xp_accounting_witness :
    (runSeq (defaultLevel "s") [250, 30]).total_xp_earned
        = ([250, 30] : List Int).sum
    ∧ (∀ o ∈ addXpTrace (defaultLevel "s") [250, 30],
        o.state.current_xp < o.state.xp_to_next_level)
    ∧ List.Chain' (fun x y =>
        x.state.total_xp_earned ≤ y.state.total_xp_earned)
        (addXpTrace (defaultLevel "s") [250, 30]) :=
  C3_xp_accounting "s" [250, 30] (by decide) (by decide)

/-- C7 counterexample: `add_xp` applies the negative amount −50 to the
default record without raising any error: the call is not rejected and the
record is changed (`current_xp` and `total_xp_earned` drop to −50). -/
theorem C7_counterexample :
    (add_xp (defaultLevel "s") (-50)).raised = false
    ∧ (add_xp (defaultLevel "s") (-50)).state
        ≠ defaultLevel "s"
    ∧ (add_xp (defaultLevel "s") (-50)).state.current_xp = -50
    ∧ (add_xp (defaultLevel "s") (-50)).state.total_xp_earned = -50 := by
  decide

/-- C7 (amended): `add_xp` performs no sign validation.  A negative amount
on any record currently satisfying the level invariant is simply applied:
`current_xp` and `total_xp_earned` decrease by the amount (possibly below
zero), no level change occurs, and no error of any kind is raised. -/
theorem C7_negative_accepted (s : StudentLevel) (a : Int) (hneg : a < 0)
    (hinv : s.current_xp < s.xp_to_next_level) :
    add_xp s a
      = ⟨{ s with current_xp := s.current_xp + a,
                  total_xp_earned := s.total_xp_earned + a },
         false, none⟩ := by
  unfold add_xp
  exact addXpLoop_no_levelup 20 _ (by simp; omega)

/-- C7 witness: the amended theorem applied to the default record and the
concrete amount −50. -/
theorem C7_negative_accepted_witness :
    add_xp (defaultLevel "s") (-50)
      = ⟨{ defaultLevel "s" with
           current_xp := (defaultLevel "s").current_xp + (-50),
           total_xp_earned := (defaultLevel "s").total_xp_earned + (-50) },
         false, none⟩ :=
  C7_negative_accepted (defaultLevel "s") (-50) (by decide) (by decide)

/-- C2: a brand-new learner reporting `message_sent` five times during one
calendar day (day 100, hours 9-13).  Contrary to the claim, every report
aborts in step 1 (`add_xp` returns `None`, so `xp_info["level_up"]`
raises): the stats record is never even created (so no stored counter
reaches 5 and the fresh default would have `messages_sent = 0`; the
orchestrator also increments key `message_sent`, not `messages_sent`), no
badge is awarded, and no quest instance exists or completes.  Only the XP
of step 1 (5 × 5 = 25) lands. -/
theorem C2_five_messages_no_counters :
    ((runActivities "kid" {}
        [("message_sent", 2409), ("message_sent", 2410),
         ("message_sent", 2411), ("message_sent", 2412),
         ("message_sent", 2413)]).1.stats = none)
    ∧ (statGet
        (get_student_stats (runActivities "kid" {}
          [("message_sent", 2409), ("message_sent", 2410),
           ("message_sent", 2411), ("message_sent", 2412),
           ("message_sent", 2413)]).1.stats) "messages_sent"
        = some (.int 0))
    ∧ ((runActivities "kid" {}
        [("message_sent", 2409), ("message_sent", 2410),
         ("message_sent", 2411), ("message_sent", 2412),
         ("message_sent", 2413)]).1.badges = [])
    ∧ ((runActivities "kid" {}
        [("message_sent", 2409), ("message_sent", 2410),
         ("message_sent", 2411), ("message_sent", 2412),
         ("message_sent", 2413)]).1.quests = [])
    ∧ (((runActivities "kid" {}
        [("message_sent", 2409), ("message_sent", 2410),
         ("message_sent", 2411), ("message_sent", 2412),
         ("message_sent", 2413)]).2.all fun r => r.error.isSome) = true)
    ∧ ((runActivities "kid" {}
        [("message_sent", 2409), ("message_sent", 2410),
         ("message_sent", 2411), ("message_sent", 2412),
         ("message_sent", 2413)]).1.level.map
          (fun l => l.total_xp_earned) = some 25) := by
  refine ⟨?_, ?_, ?_, ?_, ?_, ?_⟩ <;> decide

/-- C4: the daily-streak transition of `update_streaks` coincides, on
every stored record (or absence of one) and every current time, with the
four-case calendar-date transition stated in the specification
(`touchSpec`): create with count 1 / unchanged on the same date /
increment and raise the maximum on consecutive dates / reset to 1 on a
gap of two or more days, preserving `max_count`. -/
theorem C4_streak_transition (rec : Option Streak) (sid : String)
    (now : Nat) : update_streaks rec sid now = touchSpec rec sid now := by
  cases rec with
  | none => rfl
  | some r => rfl

/-- C6: `get_active_quests` returns an instance of the 24-hour
`daily_explorer` quest started at hour 0 when queried at hour 48 — two
full days later — because the expiry check is guarded by
`hasattr(quest, "time_limit_hours")` on the `StudentQuest` instance,
which has no such field.  Completed instances are excluded, expired ones
are not. -/
theorem C6_expired_quest_still_active :
    ((questLookup "daily_explorer").map fun q => q.time_limit_hours)
        = some (some 24)
    ∧ (0 : Nat) + 24 < 48
    ∧ get_active_quests
        [{ quest_id := "daily_explorer", student_id := "s", start_date := 0,
           progress := [], completed := false, completion_date := none }] 48
      = [{ quest_id := "daily_explorer", student_id := "s", start_date := 0,
           progress := [], completed := false, completion_date := none }]
    ∧ (∀ (db : List StudentQuest) (now : Nat) (q : StudentQuest),
        q ∈ get_active_quests db now → q.completed = false) := by
  refine ⟨by decide, by decide, by decide, ?_⟩
  intro db now q hq
  have := List.of_mem_filter hq
  by_contra hc
  rw [Bool.not_eq_false] at hc
  rw [get_active_quests] at hq
  have hmem := List.of_mem_filter hq
  rw [hc] at hmem
  simp at hmem

/-! ## Supporting lemmas: badge awarding -/

theorem mem_award_badge (held : List String) (x b : String)
    (hb : b ∈ held) : b ∈ award_badge held x := by
  unfold award_badge
  split
  · exact hb
  · exact List.mem_append_left _ hb

theorem award_badge_mem_self (held : List String) (x : String) :
    x ∈ award_badge held x := by
  unfold award_badge
  split
  · assumption
  · exact List.mem_append_right _ (by simp)

theorem count_award_badge (held : List String) (x b : String)
    (h : held.count b ≤ 1) : (award_badge held x).count b ≤ 1 := by
  unfold award_badge
  split
  · exact h
  · rename_i hx
    rw [List.count_append]
    rcases eq_or_ne b x with rfl | hne
    · have h0 : held.count b = 0 := List.count_eq_zero.mpr hx
      simp [h0]
    · have h0 : List.count b [x] = 0 := by
        rw [List.count_eq_zero]
        simp [hne]
      omega

theorem count_foldl_award (ops : List String) : ∀ (init : List String)
    (b : String), init.count b ≤ 1 →
    (ops.foldl award_badge init).count b ≤ 1 := by
  induction ops with
  | nil => intro init b h; simpa using h
  | cons x xs ih =>
      intro init b h
      rw [List.foldl_cons]
      exact ih _ b (count_award_badge _ _ _ h)

/-- Awarding only ever appends: badges held before
`check_and_award_badges` are still held afterwards. -/
theorem checkAwardGo_mono (stats delta : Stats) (cat : List BadgeDef) :
    ∀ (held : List String) (lvl : StudentLevel) (b : String), b ∈ held →
    b ∈ (checkAwardGo stats delta cat held lvl).badges := by
  induction cat with
  | nil => intro held lvl b hb; exact hb
  | cons c cs ih =>
      intro held lvl b hb
      simp only [checkAwardGo]
      split_ifs with h1 h2 h3
      · exact ih held lvl b hb
      · exact mem_award_badge _ _ _ hb
      · exact ih _ _ b (mem_award_badge _ _ _ hb)
      · exact ih held lvl b hb

/-- After a non-raising `check_and_award_badges` pass, every badge of the
catalog whose requirements are satisfied is held. -/
theorem checkAwardGo_complete (stats delta : Stats) (cat : List BadgeDef) :
    ∀ (held : List String) (lvl : StudentLevel),
    (checkAwardGo stats delta cat held lvl).raised = false →
    ∀ b ∈ cat, check_badge_requirements b stats delta = true →
      b.id ∈ (checkAwardGo stats delta cat held lvl).badges := by
  induction cat with
  | nil => intro held lvl _ b hb; exact absurd hb (List.not_mem_nil b)
  | cons c cs ih =>
      intro held lvl hr b hb he
      simp only [checkAwardGo] at hr ⊢
      by_cases h1 : c.id ∈ held
      · rw [if_pos h1] at hr ⊢
        rcases List.mem_cons.mp hb with rfl | hb'
        · exact checkAwardGo_mono stats delta cs held lvl b.id h1
        · exact ih held lvl hr b hb' he
      · rw [if_neg h1] at hr ⊢
        by_cases h2 : check_badge_requirements c stats delta = true
        · rw [if_pos h2] at hr ⊢
          by_cases h3 : (add_xp lvl c.xp_reward).raised = true
          · rw [if_pos h3] at hr
            exact absurd hr (by simp)
          · rw [if_neg h3] at hr ⊢
            rcases List.mem_cons.mp hb with rfl | hb'
            · exact checkAwardGo_mono stats delta cs _ _ b.id
                (award_badge_mem_self held b.id)
            · exact ih _ _ hr b hb' he
        · rw [if_neg h2] at hr ⊢
          rcases List.mem_cons.mp hb with rfl | hb'
          · exact absurd he h2
          · exact ih held lvl hr b hb' he

/-- If every catalog badge is either already held or ineligible, a
`check_and_award_badges` pass changes nothing and awards nothing. -/
theorem checkAwardGo_noop (stats delta : Stats) (cat : List BadgeDef) :
    ∀ (held : List String) (lvl : StudentLevel),
    (∀ b ∈ cat,
      b.id ∈ held ∨ check_badge_requirements b stats delta = false) →
    checkAwardGo stats delta cat held lvl = ⟨held, lvl, [], false⟩ := by
  induction cat with
  | nil => intro held lvl _; rfl
  | cons c cs ih =>
      intro held lvl h
      simp only [checkAwardGo]
      by_cases h1 : c.id ∈ held
      · rw [if_pos h1]
        exact ih _ _ (fun b hb => h b (List.mem_cons_of_mem _ hb))
      · rcases h c (by simp) with hc | hc
        · exact absurd hc h1
        · rw [if_neg h1, if_neg (by simp [hc])]
          exact ih _ _ (fun b hb => h b (List.mem_cons_of_mem _ hb))

/-- C5: badge awarding is idempotent.  (1) Any sequence of `award_badge`
calls starting from no achievements leaves at most one Achievement per
badge id; (2) awarding an already-held badge is a no-op on the stored
achievements; (3) after a non-raising `check_and_award_badges` pass, an
immediately repeated pass with the same stats and delta awards nothing
and grants no further XP: the achievements and the level record are
returned unchanged. -/
theorem C5_badge_award_idempotent :
    (∀ (ops : List String) (b : String),
        ((ops.foldl award_badge []).count b) ≤ 1)
    ∧ (∀ (held : List String) (b : String), b ∈ held →
        award_badge held b = held)
    ∧ (∀ (stats delta : Stats) (held : List String) (lvl : StudentLevel),
        (check_and_award_badges stats delta held lvl).raised = false →
        check_and_award_badges stats delta
            (check_and_award_badges stats delta held lvl).badges
            (check_and_award_badges stats delta held lvl).level
          = ⟨(check_and_award_badges stats delta held lvl).badges,
             (check_and_award_badges stats delta held lvl).level,
             [], false⟩) := by
  refine ⟨?_, ?_, ?_⟩
  · intro ops b
    exact count_foldl_award ops [] b (by simp)
  · intro held b hb
    simp [award_badge, hb]
  · intro stats delta held lvl hr
    unfold check_and_award_badges at hr ⊢
    apply checkAwardGo_noop
    intro b hb
    by_cases he : check_badge_requirements b stats delta = true
    · exact Or.inl (checkAwardGo_complete stats delta badgeCatalog held lvl
        hr b hb he)
    · exact Or.inr (by simpa using he)

/-- C5 witness: with stored stats showing 5 messages sent, the first pass
awards `first_chat` (and its 50 XP); the theorem, applied to the resulting
state, shows the second pass returns it unchanged with no new award. -/
theorem C5_badge_award_idempotent_witness :
    award_badge ["first_chat"] "first_chat" = ["first_chat"]
    ∧ check_and_award_badges
        (statSet defaultStats "messages_sent" (.int 5))
        (statSet defaultStats "messages_sent" (.int 5))
        (check_and_award_badges (statSet defaultStats "messages_sent" (.int 5))
          (statSet defaultStats "messages_sent" (.int 5)) []
          (defaultLevel "s")).badges
        (check_and_award_badges (statSet defaultStats "messages_sent" (.int 5))
          (statSet defaultStats "messages_sent" (.int 5)) []
          (defaultLevel "s")).level
      = ⟨(check_and_award_badges (statSet defaultStats "messages_sent" (.int 5))
            (statSet defaultStats "messages_sent" (.int 5)) []
            (defaultLevel "s")).badges,
         (check_and_award_badges (statSet defaultStats "messages_sent" (.int 5))
            (statSet defaultStats "messages_sent" (.int 5)) []
            (defaultLevel "s")).level,
         [], false⟩ :=
  ⟨C5_badge_award_idempotent.2.1 ["first_chat"] "first_chat" (by decide),
   C5_badge_award_idempotent.2.2
     (statSet defaultStats "messages_sent" (.int 5))
     (statSet defaultStats "messages_sent" (.int 5)) [] (defaultLevel "s")
     (by decide)⟩

/-! ## Supporting lemmas: leaderboard sorting -/

theorem mem_insertDesc (e : LeaderboardEntry) (l : List LeaderboardEntry)
    (y : LeaderboardEntry) : y ∈ insertDesc e l ↔ y = e ∨ y ∈ l := by
  induction l with
  | nil => simp [insertDesc]
  | cons x xs ih =>
      rw [insertDesc]
      split
      · simp only [List.mem_cons, ih]
        tauto
      · simp [List.mem_cons]

theorem pairwise_insertDesc (e : LeaderboardEntry)
    (l : List LeaderboardEntry)
    (h : l.Pairwise fun a b => b.total_xp ≤ a.total_xp) :
    (insertDesc e l).Pairwise fun a b => b.total_xp ≤ a.total_xp := by
  induction l with
  | nil => simp [insertDesc]
  | cons x xs ih =>
      rcases List.pairwise_cons.mp h with ⟨hx, hxs⟩
      rw [insertDesc]
      split
      · rename_i hgt
        apply List.pairwise_cons.mpr
        refine ⟨?_, ih hxs⟩
        intro y hy
        rcases (mem_insertDesc e xs y).mp hy with rfl | hy'
        · omega
        · exact hx y hy'
      · rename_i hle
        apply List.pairwise_cons.mpr
        refine ⟨?_, h⟩
        intro y hy
        rcases List.mem_cons.mp hy with rfl | hy'
        · omega
        · have := hx y hy'
          omega

theorem pairwise_sortByXpDesc (l : List LeaderboardEntry) :
    (sortByXpDesc l).Pairwise fun a b => b.total_xp ≤ a.total_xp := by
  induction l with
  | nil => simp [sortByXpDesc]
  | cons x xs ih => exact pairwise_insertDesc x _ ih

theorem map_xp_assignRanks (l : List LeaderboardEntry) : ∀ i : Nat,
    (assignRanks i l).map (fun e => e.total_xp)
      = l.map fun e => e.total_xp := by
  induction l with
  | nil => intro i; rfl
  | cons e rest ih => intro i; simp [assignRanks, ih]

theorem pairwise_assignRanks (i : Nat) (l : List LeaderboardEntry)
    (h : l.Pairwise fun a b => b.total_xp ≤ a.total_xp) :
    (assignRanks i l).Pairwise fun a b => b.total_xp ≤ a.total_xp := by
  have h1 : ((assignRanks i l).map fun e => e.total_xp).Pairwise
      fun a b => b ≤ a := by
    rw [map_xp_assignRanks]
    exact List.pairwise_map.mpr h
  exact List.pairwise_map.mp h1

/-- Stability of the sort: for every XP value, the entries carrying that
value appear in the sorted list in exactly their input order (Python
`list.sort` is stable). -/
theorem filter_insertDesc (e : LeaderboardEntry)
    (l : List LeaderboardEntry) (v : Int) :
    (insertDesc e l).filter (fun x => decide (x.total_xp = v))
      = if e.total_xp = v
        then e :: l.filter (fun x => decide (x.total_xp = v))
        else l.filter fun x => decide (x.total_xp = v) := by
  induction l with
  | nil =>
      by_cases he : e.total_xp = v <;> simp [insertDesc, List.filter, he]
  | cons x xs ih =>
      rw [insertDesc]
      split
      · rename_i hgt
        by_cases he : e.total_xp = v
        · have hx : ¬ x.total_xp = v := by omega
          rw [List.filter_cons_of_neg (by simpa using hx), ih, if_pos he,
              if_pos he, List.filter_cons_of_neg (by simpa using hx)]
        · by_cases hx : x.total_xp = v
          · rw [List.filter_cons_of_pos (by simpa using hx), ih, if_neg he,
                if_neg he, List.filter_cons_of_pos (by simpa using hx)]
          · rw [List.filter_cons_of_neg (by simpa using hx), ih, if_neg he,
                if_neg he, List.filter_cons_of_neg (by simpa using hx)]
      · rename_i hle
        by_cases he : e.total_xp = v
        · rw [if_pos he, List.filter_cons_of_pos (by simpa using he)]
        · rw [if_neg he, List.filter_cons_of_neg (by simpa using he)]

theorem filter_sortByXpDesc (l : List LeaderboardEntry) (v : Int) :
    (sortByXpDesc l).filter (fun x => decide (x.total_xp = v))
      = l.filter fun x => decide (x.total_xp = v) := by
  induction l with
  | nil => rfl
  | cons x xs ih =>
      rw [sortByXpDesc, filter_insertDesc, ih]
      by_cases hx : x.total_xp = v
      · rw [if_pos hx, List.filter_cons_of_pos (by simpa using hx)]
      · rw [if_neg hx, List.filter_cons_of_neg (by simpa using hx)]

/-- C8 counterexample: two stores holding the same two learners (ids
"aaaa" and "bbbb", both with 1500 XP) in opposite insertion orders produce
opposite leaderboard orders — the tie is broken by store insertion order,
not by the learner identifier. -/
theorem C8_counterexample :
    ((get_leaderboard_data
        [("bbbb", ⟨"bbbb", 1, 0, 100, 1500, "Curious Beginner"⟩),
         ("aaaa", ⟨"aaaa", 1, 0, 100, 1500, "Curious Beginner"⟩)]
        [] "all_time" 10).map fun e => e.student_id) = ["bbbb", "aaaa"]
    ∧ ((get_leaderboard_data
        [("aaaa", ⟨"aaaa", 1, 0, 100, 1500, "Curious Beginner"⟩),
         ("bbbb", ⟨"bbbb", 1, 0, 100, 1500, "Curious Beginner"⟩)]
        [] "all_time" 10).map fun e => e.student_id) = ["aaaa", "bbbb"] := by
  constructor <;> decide

/-- C8 (amended): the leaderboard is sorted by `total_xp` descending, and
ties keep the store insertion (iteration) order — the sort is stable — so
the output is deterministic for a given store state but the tie-break is
not a function of the learner identifiers.  For learners with totalXp
[500, 1500, 1500, 0], the two 1500-XP learners come first (in store
order), then 500, then 0. -/
theorem C8_leaderboard_order (levelsDb : List (String × StudentLevel))
    (badgesDb : List (String × List String)) (timeframe : String)
    (limit : Nat) :
    (get_leaderboard_data levelsDb badgesDb timeframe limit).Pairwise
        (fun a b => b.total_xp ≤ a.total_xp)
    ∧ (∀ (l : List LeaderboardEntry) (v : Int),
        (sortByXpDesc l).filter (fun x => decide (x.total_xp = v))
          = l.filter fun x => decide (x.total_xp = v))
    ∧ ((get_leaderboard_data
          [("s001", ⟨"s001", 1, 0, 100, 500, "Curious Beginner"⟩),
           ("s002", ⟨"s002", 1, 0, 100, 1500, "Curious Beginner"⟩),
           ("s003", ⟨"s003", 1, 0, 100, 1500, "Curious Beginner"⟩),
           ("s004", ⟨"s004", 1, 0, 100, 0, "Curious Beginner"⟩)]
          [] "all_time" 10).map fun e => e.student_id)
        = ["s002", "s003", "s001", "s004"] := by
  refine ⟨?_, fun l v => filter_sortByXpDesc l v, by decide⟩
  unfold get_leaderboard_data
  apply pairwise_assignRanks
  exact (pairwise_sortByXpDesc _).sublist (List.take_sublist _ _)

/-! ## C9: XP bonus caps -/

theorem calc_reading_total (a w c : Nat) :
    (calculate_activity_xp "reading_session"
      { accuracy_score := a, words_per_minute := w,
                            comprehension_score := c }).total_xp
    = 40 + a / 2 + min (w / 2) 50 + c / 2 := rfl

/-- C9 counterexample: the accuracy bonus of a `reading_session` is not
capped by any fixed bound — for every candidate bound `B` an accuracy
score of `2B + 2` yields total XP above `B` (the bonus is
`int(accuracy * 0.5)` with no cap applied). -/
theorem C9_counterexample :
    ¬ ∃ B : Nat, ∀ a : Nat,
      (calculate_activity_xp "reading_session"
        { accuracy_score := a }).total_xp ≤ B := by
  rintro ⟨B, hB⟩
  have h := hB (2 * B + 2)
  rw [calc_reading_total] at h
  norm_num at h
  omega

/-- C9 (amended): the total XP of a `reading_session` is the 40-XP base
plus the three bonuses `accuracy/2`, `min(wpm/2, 50)` and
`comprehension/2`.  Only the reading-speed bonus is capped for all inputs
(at 50); the accuracy and comprehension bonuses are merely `score/2`, so
they stay within 50 only when the score is within the conventional
0-100 range and are unbounded otherwise. -/
theorem C9_bonus_caps (d : ActivityData) :
    (calculate_activity_xp "reading_session" d).total_xp
      = 40 + d.accuracy_score / 2 + min (d.words_per_minute / 2) 50
        + d.comprehension_score / 2
    ∧ min (d.words_per_minute / 2) 50 ≤ 50
    ∧ (d.accuracy_score ≤ 100 → d.accuracy_score / 2 ≤ 50)
    ∧ (d.comprehension_score ≤ 100 → d.comprehension_score / 2 ≤ 50) := by
  refine ⟨rfl, min_le_right _ _, ?_, ?_⟩ <;> intro h <;> omega

/-- C9 witness: the amended theorem at accuracy 80, 120 wpm,
comprehension 90. -/
theorem C9_bonus_caps_witness :
    (calculate_activity_xp "reading_session"
        { accuracy_score := 80, words_per_minute := 120,
          comprehension_score := 90 }).total_xp
      = 40 + 80 / 2 + min (120 / 2) 50 + 90 / 2
    ∧ (80 : Nat) / 2 ≤ 50 :=
  ⟨(C9_bonus_caps ⟨80, 120, 90, none, none⟩).1,
   (C9_bonus_caps ⟨80, 120, 90, none, none⟩).2.2.1 (by decide)⟩

/-! ## C10: the stat-counter key set is fixed at creation -/

theorem alistGet_alistSet_ne {β : Type} (l : List (String × β))
    (k k' : String) (v : β) (h : k' ≠ k) :
    alistGet (alistSet l k v) k' = alistGet l k' := by
  induction l with
  | nil => simp only [alistSet, alistGet, if_neg (Ne.symm h)]
  | cons p rest ih =>
      obtain ⟨a, b⟩ := p
      rw [alistSet]
      split
      · rename_i ha
        subst ha
        simp only [alistGet, if_neg (Ne.symm h)]
      · simp only [alistGet, ih]

theorem statGet_statSet_ne (s : Stats) (k k' : String) (v : StatValue)
    (h : k' ≠ k) : statGet (statSet s k v) k' = statGet s k' :=
  alistGet_alistSet_ne s k k' v h

/-- A key absent from the stats dict is silently discarded by the update
loop. -/
theorem applyStatUpdate_absent (stats : Stats) (k : String) (v : StatValue)
    (h : statGet stats k = none) : applyStatUpdate stats k v = stats := by
  unfold applyStatUpdate
  rw [h]
  simp [isSetVal]

/-- The update loop never creates a key: a key absent before
`applyStatUpdate` is absent afterwards. -/
theorem applyStatUpdate_preserves_absent (stats : Stats) (k' : String)
    (v : StatValue) (k : String) (h : statGet stats k = none) :
    statGet (applyStatUpdate stats k' v) k = none := by
  by_cases hk : k = k'
  · subst hk
    rw [applyStatUpdate_absent stats k v h]
    exact h
  · unfold applyStatUpdate
    split_ifs with hd hp hn
    · split
      · rw [statGet_statSet_ne _ _ _ _ hk]
        exact h
      · exact h
    · split
      · rw [statGet_statSet_ne _ _ _ _ hk]
        exact h
      · exact h
    · rw [statGet_statSet_ne _ _ _ _ hk]
      exact h
    · exact h

theorem foldl_applyStatUpdate_absent (upd : List (String × StatValue)) :
    ∀ (stats : Stats) (k : String), statGet stats k = none →
    statGet (upd.foldl (fun acc kv => applyStatUpdate acc kv.1 kv.2) stats) k
      = none := by
  induction upd with
  | nil => intro stats k h; exact h
  | cons kv rest ih =>
      intro stats k h
      rw [List.foldl_cons]
      exact ih _ k (applyStatUpdate_preserves_absent _ _ _ _ h)

/-- `update_student_stats` never creates a counter key: apart from the two
timestamp fields it stamps, a key absent from the (lazily created) stats
record is still absent after the update. -/
theorem update_student_stats_absent (db : Option Stats)
    (upd : List (String × StatValue)) (now : Nat) (k : String)
    (h1 : k ≠ "last_activity_date") (h2 : k ≠ "first_chat_date")
    (h : statGet (get_student_stats db) k = none) :
    statGet (update_student_stats db upd now) k = none := by
  simp only [update_student_stats]
  have hf := foldl_applyStatUpdate_absent upd (get_student_stats db) k h
  split
  · rw [statGet_statSet_ne _ _ _ _ h2, statGet_statSet_ne _ _ _ _ h1]
    exact hf
  · rw [statGet_statSet_ne _ _ _ _ h1]
    exact hf

/-- C10: `update_student_stats` increments a key only if it already exists
in the stats record (whose key set is the default schema fixed by
`get_student_stats` at first creation) and silently discards every other
key; in particular, the orchestrator keys `message_sent` and
`total_activities` — absent from the schema — never create or change a
stored counter, and `messages_sent` stays 0 after an update for a
`message_sent` activity. -/
theorem C10_unknown_keys_discarded :
    (∀ (stats : Stats) (k : String) (v : StatValue),
        statGet stats k = none → applyStatUpdate stats k v = stats)
    ∧ (∀ (db : Option Stats) (upd : List (String × StatValue)) (now : Nat)
          (k : String), k ≠ "last_activity_date" → k ≠ "first_chat_date" →
        statGet (get_student_stats db) k = none →
        statGet (update_student_stats db upd now) k = none)
    ∧ (statGet (update_student_stats none
          (stats_update_of "message_sent" {} 2409) 2409) "message_sent"
        = none)
    ∧ (statGet (update_student_stats none
          (stats_update_of "message_sent" {} 2409) 2409) "total_activities"
        = none)
    ∧ (statGet (update_student_stats none
          (stats_update_of "message_sent" {} 2409) 2409) "messages_sent"
        = some (.int 0)) :=
  ⟨applyStatUpdate_absent, update_student_stats_absent,
   by decide, by decide, by decide⟩

/-- C10 witness: the theorem applied to the default schema and the
orchestrator keys. -/
theorem C10_unknown_keys_discarded_witness :
    applyStatUpdate defaultStats "message_sent" (.int 1) = defaultStats
    ∧ statGet (update_student_stats (some defaultStats)
        [("total_activities", .int 1)] 2409) "total_activities" = none :=
  ⟨C10_unknown_keys_discarded.1 defaultStats "message_sent" (.int 1)
     (by decide),
   C10_unknown_keys_discarded.2.1 (some defaultStats)
     [("total_activities", .int 1)] 2409 "total_activities"
     (by decide) (by decide) (by decide)⟩

end Peregrine
